import Mathlib

/-!
# Verification of the health-cli core against its specification

Shallow embedding of the health-cli TypeScript sources:

* mock data generators (`generateMockHRV`, `generateMockSleep`,
  `generateMockStatus`, `generateMockAlerts`),
* the trend analyzers (`analyzeHRVTrend`, `calculateTrend`),
* sleep debt (`calculateSleepDebt`),
* the Apple-Health XML structural scanner (`parseAppleHealthXML`).

Conventions of the embedding:

* JavaScript numbers are modelled as `ℚ` (exact rationals); `Math.round`
  is `⌊x + 1/2⌋` (round half toward +∞, JavaScript semantics) and
  `Math.floor` is `⌊x⌋`.
* Every call to `Math.random()` is modelled as an explicit parameter,
  one draw (a rational in `[0,1)`) per call site and loop iteration.
* Calendar dates are modelled as integer day numbers: `new Date()` is a
  parameter `today : ℤ` and `date.setDate(date.getDate() - i)` yields
  `today - i`.  Times of day are seconds-since-midnight rationals;
  the displayed `HH:MM` string (`toTimeString().substring(0, 5)`) is
  modelled as minutes-since-midnight modulo 1440.
* Strings scanned by the importer are `List Char`; regex scans of the
  source are implemented as the equivalent left-to-right, non-overlapping
  explicit scans.
-/

/-- JavaScript `Math.round`: round half toward positive infinity. -/
def jround (x : ℚ) : ℤ := ⌊x + 1/2⌋

/-- `Math.round(x * 10) / 10`: round to one decimal place. -/
def round1 (x : ℚ) : ℚ := (jround (x * 10) : ℚ) / 10

/-- HRV category, the union type `'low' | 'normal' | 'high'`. -/
inductive HRVCategory
  | low
  | normal
  | high
  deriving DecidableEq, Repr

/-- The category branch of `generateMockHRV`:
`if (value < 30) 'low' else if (value > 60) 'high' else 'normal'`. -/
def hrvCategory (value : ℚ) : HRVCategory :=
  if value < 30 then .low else if value > 60 then .high else .normal

/-- A `HRVData` record: `{date, value, category}` with the date as an
integer day number. -/
structure HRVData where
  date : ℤ
  value : ℤ
  category : HRVCategory
  deriving DecidableEq, Repr

/-- One loop iteration of `generateMockHRV`: the sample pushed for loop
index `i` (date `today - i`), with `u i` the `Math.random()` draw. -/
def hrvSample (u : ℕ → ℚ) (today : ℤ) (i : ℕ) : HRVData :=
  let variation := (u i - 1/2) * 20
  let value := max 20 (min 80 (45 + variation))
  { date := today - i
    value := jround value
    category := hrvCategory value }

/-- `generateMockHRV(days)`: the loop runs `i = days-1` down to `0`,
pushing one sample per day. -/
def generateMockHRV (days : ℕ) (u : ℕ → ℚ) (today : ℤ) : List HRVData :=
  ((List.range days).reverse).map (hrvSample u today)

/-- The `Math.random()` draws consumed by one iteration of
`generateMockSleep`, plus `sec`: the seconds-and-milliseconds of the
wall clock inherited by `new Date(date)` (untouched by
`setHours(hours, minutes)`), as seconds in `[0, 60)`. -/
structure SleepDraws where
  dur : ℚ
  dp : ℚ
  rem : ℚ
  bh : ℚ
  bm : ℚ
  score : ℚ
  sec : ℚ
  deriving Repr

/-- Raw (un-rounded) sleep duration in hours: `6.5 + Math.random() * 2.5`. -/
def durationRaw (d : SleepDraws) : ℚ := 6.5 + d.dur * 2.5

/-- The bedtime instant as seconds-since-midnight of its day:
`setHours(22 + floor(rand*3), floor(rand*60))` keeps the inherited
seconds `d.sec`. -/
def bedtimeSec (d : SleepDraws) : ℚ :=
  (22 + ⌊d.bh * 3⌋ : ℤ) * 3600 + (⌊d.bm * 60⌋ : ℤ) * 60 + d.sec

/-- Displayed `HH:MM` (as minutes-since-midnight, 0..1439) of an instant
given in seconds: `toTimeString().substring(0, 5)` truncates seconds and
wraps past midnight. -/
def hhmm (secOfDay : ℚ) : ℤ := ⌊secOfDay / 60⌋ % 1440

/-- A `SleepData` record; `bedtime` and `wake_time` are the displayed
`HH:MM` values as minutes-since-midnight. -/
structure SleepData where
  date : ℤ
  duration_hours : ℚ
  deep_sleep_hours : ℚ
  rem_sleep_hours : ℚ
  sleep_score : ℤ
  bedtime : ℤ
  wake_time : ℤ
  deriving DecidableEq, Repr

/-- One loop iteration of `generateMockSleep` for loop index `i`:
`wakeTime.setTime(bedtime.getTime() + duration * 60 * 60 * 1000)`. -/
def sleepSample (today : ℤ) (d : SleepDraws) (i : ℕ) : SleepData :=
  let duration := durationRaw d
  let deepSleep := duration * (0.15 + d.dp * 0.10)
  let remSleep := duration * (0.20 + d.rem * 0.10)
  let bedSec := bedtimeSec d
  let wakeSec := bedSec + duration * 3600
  { date := today - i
    duration_hours := round1 duration
    deep_sleep_hours := round1 deepSleep
    rem_sleep_hours := round1 remSleep
    sleep_score := jround (60 + d.score * 35)
    bedtime := hhmm bedSec
    wake_time := hhmm wakeSec }

/-- `generateMockSleep(days)`: loop `i = days-1` down to `0`. -/
def generateMockSleep (days : ℕ) (ds : ℕ → SleepDraws) (today : ℤ) :
    List SleepData :=
  ((List.range days).reverse).map (fun i => sleepSample today (ds i) i)

-- Sanity checks on the arithmetic embedding (concrete evaluation).
example : jround (35 : ℚ) = 35 := by norm_num [jround]
example : round1 (6.54 : ℚ) = 6.5 := by norm_num [round1, jround]
example : round1 (6.55 : ℚ) = 6.6 := by norm_num [round1, jround]
example : hhmm (22 * 3600 + 30) = 22 * 60 := by norm_num [hhmm]

/-- The short HRV trend of the status snapshot,
`'up' | 'down' | 'stable'`. -/
inductive StatusTrend
  | up
  | down
  | stable
  deriving DecidableEq, Repr

/-- The `hrv` sub-object of `HealthStatus`. -/
structure HRVStatus where
  current : ℤ
  trend : StatusTrend
  category : HRVCategory
  deriving DecidableEq, Repr

/-- The `sleep` sub-object of `HealthStatus`. -/
structure SleepStatus where
  last_night_hours : ℚ
  avg_7_day : ℚ
  score : ℤ
  deriving DecidableEq, Repr

/-- The `activity` sub-object of `HealthStatus`. -/
structure ActivityStatus where
  steps : ℤ
  active_calories : ℤ
  exercise_minutes : ℤ
  deriving DecidableEq, Repr

/-- A `HealthStatus` snapshot. -/
structure HealthStatus where
  date : ℤ
  hrv : HRVStatus
  sleep : SleepStatus
  activity : ActivityStatus
  alerts : List String
  deriving DecidableEq, Repr

/-- The three `Math.random()` draws of the `activity` object of
`generateMockStatus`. -/
structure ActivityDraws where
  steps : ℚ
  cal : ℚ
  ex : ℚ
  deriving Repr

/-- Fallback record for `array[index]` reads (always in range here). -/
def dfltHRV : HRVData := { date := 0, value := 0, category := .normal }

/-- Fallback record for `array[index]` reads (always in range here). -/
def dfltSleep : SleepData :=
  { date := 0, duration_hours := 0, deep_sleep_hours := 0
    rem_sleep_hours := 0, sleep_score := 0, bedtime := 0, wake_time := 0 }

/-- `generateMockStatus()`: generates 7 days of HRV and sleep data with
fresh draws and assembles the snapshot.  `uH`/`uS` are the per-day draw
streams of the two inner generator calls, `a` holds the three activity
draws. -/
def generateMockStatus (uH : ℕ → ℚ) (uS : ℕ → SleepDraws)
    (a : ActivityDraws) (today : ℤ) : HealthStatus :=
  let recentHRV := generateMockHRV 7 uH today
  let recentSleep := generateMockSleep 7 uS today
  let currentHRV := recentHRV.getD (recentHRV.length - 1) dfltHRV
  let lastNightSleep := recentSleep.getD (recentSleep.length - 1) dfltSleep
  let avgSleep :=
    (recentSleep.foldl (fun sum s => sum + s.duration_hours) 0) / 7
  let prevHRV := recentHRV.getD (recentHRV.length - 2) dfltHRV
  let hrvTrend :=
    if 1 < recentHRV.length then
      if prevHRV.value < currentHRV.value then StatusTrend.up
      else if currentHRV.value < prevHRV.value then StatusTrend.down
      else StatusTrend.stable
    else StatusTrend.stable
  let alerts :=
    (if currentHRV.value < 30 then ["🔴 HRV is low - consider rest day"]
     else []) ++
    (if lastNightSleep.duration_hours < 6 then
      ["😴 Insufficient sleep last night"]
     else [])
  { date := today
    hrv := { current := currentHRV.value, trend := hrvTrend
             category := currentHRV.category }
    sleep := { last_night_hours := lastNightSleep.duration_hours
               avg_7_day := round1 avgSleep
               score := lastNightSleep.sleep_score }
    activity := { steps := 8500 + ⌊a.steps * 3000⌋
                  active_calories := 450 + ⌊a.cal * 200⌋
                  exercise_minutes := 25 + ⌊a.ex * 40⌋ }
    alerts := alerts }

/-- Alert status, the union type `'ok' | 'warning' | 'critical'`. -/
inductive AlertStatus
  | ok
  | warning
  | critical
  deriving DecidableEq, Repr

/-- An `AlertThreshold` record. -/
structure AlertThreshold where
  metric : String
  threshold : ℚ
  current : ℚ
  status : AlertStatus
  message : String
  deriving DecidableEq, Repr

/-- The literal array returned by `generateMockAlerts` as a function of
the freshly generated status (the body after `const status = ...`). -/
def mkAlerts (status : HealthStatus) : List AlertThreshold :=
  [ { metric := "HRV"
      threshold := 30
      current := (status.hrv.current : ℚ)
      status := if (status.hrv.current : ℚ) < 30 then .warning else .ok
      message := if (status.hrv.current : ℚ) < 30 then
          "HRV below recovery threshold" else "HRV within normal range" },
    { metric := "Sleep Duration"
      threshold := 6
      current := status.sleep.last_night_hours
      status := if status.sleep.last_night_hours < 6 then .warning else .ok
      message := if status.sleep.last_night_hours < 6 then
          "Insufficient sleep duration" else "Sleep duration adequate" },
    { metric := "Daily Steps"
      threshold := 5000
      current := (status.activity.steps : ℚ)
      status := if (status.activity.steps : ℚ) < 5000 then .warning else .ok
      message := if (status.activity.steps : ℚ) < 5000 then
          "Below recommended daily steps" else "Meeting step goals" } ]

/-- `generateMockAlerts()`: evaluates the thresholds against a freshly
generated status. -/
def generateMockAlerts (uH : ℕ → ℚ) (uS : ℕ → SleepDraws)
    (a : ActivityDraws) (today : ℤ) : List AlertThreshold :=
  mkAlerts (generateMockStatus uH uS a today)

/-- Trend direction, the strings returned by the trend analyzers. -/
inductive TrendDirection
  | stable
  | improving
  | declining
  | insufficient_data
  deriving DecidableEq, Repr

/-- Trend significance, `'none' | 'moderate' | 'significant'`. -/
inductive Significance
  | none
  | moderate
  | significant
  deriving DecidableEq, Repr

/-- The object returned by `analyzeHRVTrend`; `change_percent` is
`Option` because the `insufficient_data` early return omits the field. -/
structure HRVTrendResult where
  direction : TrendDirection
  change : ℤ
  change_percent : Option ℤ
  significance : Significance
  deriving DecidableEq, Repr

/-- `analyzeHRVTrend(data)` over the `value` series of the records:
guard `data.length < 2`; windows `slice(-3)` and `slice(0, 3)`, each
summed and divided by the literal 3. -/
def analyzeHRVTrend (values : List ℚ) : HRVTrendResult :=
  if values.length < 2 then
    { direction := .insufficient_data, change := 0
      change_percent := none, significance := .none }
  else
    let recent :=
      ((values.drop (values.length - 3)).foldl (· + ·) 0) / 3
    let earlier := ((values.take 3).foldl (· + ·) 0) / 3
    let change := recent - earlier
    let changePercent := jround (change / earlier * 100)
    if |change| < 2 then
      { direction := .stable, change := jround change
        change_percent := some changePercent, significance := .none }
    else if 0 < change then
      { direction := .improving, change := jround change
        change_percent := some changePercent
        significance := if 5 < change then .significant else .moderate }
    else
      { direction := .declining, change := jround change
        change_percent := some changePercent
        significance := if change < -5 then .significant else .moderate }

/-- `calculateTrend(values)` (sleep duration/score variant): guard
`values.length < 3`, stability threshold `0.2`; returns only the
direction string. -/
def calculateTrend (values : List ℚ) : TrendDirection :=
  if values.length < 3 then .insufficient_data
  else
    let recent :=
      ((values.drop (values.length - 3)).foldl (· + ·) 0) / 3
    let earlier := ((values.take 3).foldl (· + ·) 0) / 3
    let change := recent - earlier
    if |change| < 0.2 then .stable
    else if 0 < change then .improving
    else .declining

/-- Sleep debt status, `'significant' | 'moderate' | 'minimal'`. -/
inductive DebtStatus
  | significant
  | moderate
  | minimal
  deriving DecidableEq, Repr

/-- The accumulation loop of `calculateSleepDebt`:
`if (night.duration_hours < 8) totalDebt += 8 - night.duration_hours`. -/
def sleepDebtTotal (durations : List ℚ) : ℚ :=
  durations.foldl (fun acc d => if d < 8 then acc + (8 - d) else acc) 0

/-- The object returned by `calculateSleepDebt`. -/
structure SleepDebt where
  total_hours : ℚ
  avg_per_night : ℚ
  status : DebtStatus
  deriving DecidableEq, Repr

/-- `calculateSleepDebt(data)` over the `duration_hours` series (target
8 hours); the status thresholds compare the un-rounded total. -/
def calculateSleepDebt (durations : List ℚ) : SleepDebt :=
  let totalDebt := sleepDebtTotal durations
  { total_hours := round1 totalDebt
    avg_per_night := round1 (totalDebt / durations.length)
    status := if 5 < totalDebt then .significant
              else if 2 < totalDebt then .moderate
              else .minimal }

-- Sanity checks for the trend analyzers.
example : (analyzeHRVTrend [10, 10, 10, 1, 1, 1]).direction = .declining := by
  norm_num [analyzeHRVTrend]
example : (analyzeHRVTrend [10, 20]).direction = .stable := by
  norm_num [analyzeHRVTrend]
example : calculateTrend [5, 5, 5, 5, 5, 5] = .stable := by
  norm_num [calculateTrend]

/-! ## The XML structural scanner (`parseAppleHealthXML`) -/

/-- `text.includes(pat)`: substring containment. -/
def containsSub (pat : List Char) : List Char → Bool
  | [] => pat.isEmpty
  | c :: rest => pat.isPrefixOf (c :: rest) || containsSub pat rest

/-- Split a character list at the first `'>'`: the characters before it
and the remainder after it (`none` if no `'>'` occurs). -/
def splitAtGt : List Char → Option (List Char × List Char)
  | [] => none
  | c :: rest =>
    if c = '>' then some ([], rest)
    else (splitAtGt rest).map (fun p => (c :: p.1, p.2))

/-- All matches of the regex `tag[^>]*>` scanning left to right,
non-overlapping (the `String.match(..., /g/)` behavior): at each
position where `tag` is a prefix, the match extends to the first `'>'`;
scanning resumes after a match, or one character later on failure.
`fuel` is an upper bound on the scan length (the input length). -/
def scanTagAux (tag : List Char) : ℕ → List Char → List (List Char)
  | 0, _ => []
  | _, [] => []
  | fuel + 1, c :: rest =>
    if tag.isPrefixOf (c :: rest) then
      match splitAtGt (List.drop tag.length (c :: rest)) with
      | some (body, rest2) =>
        (tag ++ body ++ ['>']) :: scanTagAux tag fuel rest2
      | none => scanTagAux tag fuel rest
    else scanTagAux tag fuel rest

/-- All matches of `tag[^>]*>` in `s`. -/
def scanTagMatches (tag : List Char) (s : List Char) : List (List Char) :=
  scanTagAux tag s.length s

/-- Split a character list at the first `'"'`. -/
def splitAtQuote : List Char → Option (List Char × List Char)
  | [] => none
  | c :: rest =>
    if c = '"' then some ([], rest)
    else (splitAtQuote rest).map (fun p => (c :: p.1, p.2))

/-- First match of `pat([^"]+)"` (e.g. `record.match(/type="([^"]+)"/)`):
the captured non-empty value of the first complete occurrence. -/
def extractAttrVal (pat : List Char) : List Char → Option (List Char)
  | [] => none
  | c :: rest =>
    match
      (if pat.isPrefixOf (c :: rest) then
        match splitAtQuote (List.drop pat.length (c :: rest)) with
        | some (body, _) => if body.isEmpty then none else some body
        | none => none
      else none) with
    | some body => some body
    | none => extractAttrVal pat rest

/-- All captured values of `pat([^"]+)"` across the document
(`match(/startDate="([^"]+)"/g)` followed by per-match re-extraction):
non-overlapping, scanning resumes after each complete match. -/
def allAttrVals (pat : List Char) : ℕ → List Char → List (List Char)
  | 0, _ => []
  | _, [] => []
  | fuel + 1, c :: rest =>
    match
      (if pat.isPrefixOf (c :: rest) then
        splitAtQuote (List.drop pat.length (c :: rest))
      else none) with
    | some (body, rest2) =>
      if body.isEmpty then allAttrVals pat fuel rest
      else body :: allAttrVals pat fuel rest2
    | none => allAttrVals pat fuel rest

/-- `[A-Za-z]`. -/
def isAsciiLetter (c : Char) : Bool :=
  ('A' ≤ c && c ≤ 'Z') || ('a' ≤ c && c ≤ 'z')

/-- `[A-Z]`. -/
def isAsciiUpper (c : Char) : Bool := 'A' ≤ c && c ≤ 'Z'

/-- The literal `TypeIdentifier` (14 characters). -/
def tidChars : List Char := "TypeIdentifier".data

/-- Greedy backtracking of `[A-Za-z]*` before `TypeIdentifier`: the
largest `k ≤ runLen` such that `TypeIdentifier` starts `k` characters
into `rest`. -/
def findGreedy (rest : List Char) : ℕ → Option ℕ
  | 0 => if tidChars.isPrefixOf rest then some 0 else none
  | k + 1 =>
    if tidChars.isPrefixOf (rest.drop (k + 1)) then some (k + 1)
    else findGreedy rest k

/-- Length of the regex match `HK[A-Za-z]*TypeIdentifier` anchored at
the start of `s`, if any. -/
def tryHKMatch (s : List Char) : Option ℕ :=
  if ("HK".data).isPrefixOf s then
    let rest := s.drop 2
    let runLen := (rest.takeWhile isAsciiLetter).length
    (findGreedy rest runLen).map (fun k => 2 + k + tidChars.length)
  else none

/-- `fullType.replace(/HK[A-Za-z]*TypeIdentifier/, '')`: remove the
first (leftmost, greedy) match. -/
def stripHK : List Char → List Char
  | [] => []
  | c :: rest =>
    match tryHKMatch (c :: rest) with
    | some matchLen => List.drop matchLen (c :: rest)
    | none => c :: stripHK rest

/-- `.replace(/([A-Z])/g, ' $1')`: a space before every capital. -/
def spaceCaps (s : List Char) : List Char :=
  (s.map (fun c => if isAsciiUpper c then [' ', c] else [c])).flatten

/-- JavaScript whitespace characters relevant to `.trim()` here. -/
def isWs (c : Char) : Bool := c = ' ' || c = '\t' || c = '\n' || c = '\r'

/-- `.trim()`. -/
def trimWs (s : List Char) : List Char :=
  ((s.dropWhile isWs).reverse.dropWhile isWs).reverse

/-- The type-name simplification of the scanner:
strip the `HK...TypeIdentifier` prefix, space the capitals, trim. -/
def simplifyType (t : List Char) : List Char :=
  trimWs (spaceCaps (stripHK t))

/-- `Set.add`: append if not already present (insertion order kept). -/
def setAdd (x : List Char) (s : List (List Char)) : List (List Char) :=
  if s.contains x then s else s ++ [x]

/-- Lexicographic (code-unit) strict order, the JavaScript default
`Array.prototype.sort()` comparison for strings. -/
def lexLt : List Char → List Char → Bool
  | [], [] => false
  | [], _ :: _ => true
  | _ :: _, [] => false
  | a :: as, b :: bs =>
    if a < b then true else if b < a then false else lexLt as bs

/-- Insertion into a lexicographically sorted list. -/
def insertLex (x : List Char) : List (List Char) → List (List Char)
  | [] => [x]
  | y :: ys => if lexLt x y then x :: y :: ys else y :: insertLex x ys

/-- `.sort()`: lexicographic insertion sort. -/
def sortLex (l : List (List Char)) : List (List Char) :=
  l.foldr insertLex []

/-- The `ParseResult` of the scanner. -/
structure ParseResult where
  recordCount : ℕ
  dataTypes : List String
  dateStart : String
  dateEnd : String
  warnings : List String
  deriving DecidableEq, Repr

/-- The scanner error: the `HealthData` root marker is absent. -/
inductive ScanError
  | malformedImport
  deriving DecidableEq, Repr

/-- The body of `parseAppleHealthXML` after the root-marker check. -/
def scanHealthBody (s : List Char) : ParseResult :=
  let recordMatches := scanTagMatches "<Record".data s
  let workoutMatches := scanTagMatches "<Workout".data s
  let recordCount := recordMatches.length + workoutMatches.length
  let dataTypes := (recordMatches.take 1000).foldl
    (fun acc r =>
      match extractAttrVal "type=\"".data r with
      | some t => setAdd (simplifyType t) acc
      | none => acc) []
  let dates := sortLex (allAttrVals "startDate=\"".data s.length s)
  let startDate :=
    (dates.getD 0 []).takeWhile (fun c => ¬ c = ' ')
  let endDate :=
    (dates.getD (dates.length - 1) []).takeWhile (fun c => ¬ c = ' ')
  let warnings :=
    (if recordCount = 0 then ["No health records found in export"]
     else []) ++
    (if 50000 < recordCount then
      ["Large dataset (" ++ Nat.repr recordCount ++
        " records) - processing limited for demo"]
     else []) ++
    (if ¬ dataTypes.contains "Heart Rate Variability SDNN".data then
      ["HRV data not found in export"] else []) ++
    (if ¬ dataTypes.contains "Sleep Analysis".data then
      ["Sleep data not found in export"] else []) ++
    ["NOTE: This is a parser demo - no personal health data is stored or transmitted"]
  { recordCount := recordCount
    dataTypes := (sortLex dataTypes).map String.mk
    dateStart := String.mk startDate
    dateEnd := String.mk endDate
    warnings := warnings }

/-- `parseAppleHealthXML(xmlContent)`: throws when the substring
`<HealthData` is absent, otherwise scans the structure. -/
def parseAppleHealthXML (s : List Char) : Except ScanError ParseResult :=
  if containsSub "<HealthData".data s then .ok (scanHealthBody s)
  else .error .malformedImport

-- Sanity checks for the scanner pieces.
example : simplifyType "HKQuantityTypeIdentifierHeartRateVariabilitySDNN".data
    = "Heart Rate Variability S D N N".data := by decide
example : simplifyType "HKCategoryTypeIdentifierSleepAnalysis".data
    = "Sleep Analysis".data := by decide
example :
    parseAppleHealthXML "<NotHealthData></NotHealthData>".data
      = .error .malformedImport := by rfl

/-! ## Shape lemmas for the `for (i = days-1; i >= 0; i--)` loops -/

/-- Peeling one iteration off a descending loop. -/
theorem revRangeMap_succ {α : Type} (f : ℕ → α) (n : ℕ) :
    ((List.range (n + 1)).reverse).map f
      = f n :: ((List.range n).reverse).map f := by
  simp [List.range_succ]

/-- A descending loop over dates `today - i` produces a strictly
increasing date sequence. -/
theorem revRangeMap_pairwise {α : Type} (f : ℕ → α) (g : α → ℤ)
    (today : ℤ) (hf : ∀ i, g (f i) = today - i) (n : ℕ) :
    List.Pairwise (fun a b => g a < g b)
      (((List.range n).reverse).map f) := by
  rw [List.pairwise_map, List.pairwise_reverse]
  refine (List.pairwise_lt_range n).imp ?_
  intro i j hij
  rw [hf i, hf j]
  omega

/-- The last element a descending loop pushes is the `i = 0` sample. -/
theorem revRangeMap_getLast {α : Type} (f : ℕ → α) :
    ∀ n : ℕ, 1 ≤ n →
      ((((List.range n).reverse).map f).getLast?) = some (f 0)
  | 0, h => by omega
  | 1, _ => by simp [List.range_succ]
  | n + 2, _ => by
    rw [revRangeMap_succ f (n + 1), revRangeMap_succ f n,
      List.getLast?_cons_cons, ← revRangeMap_succ f n]
    exact revRangeMap_getLast f (n + 1) (by omega)

/-! ## Claim theorems -/

/-- **C7.** For every positive `n`, `generateMockHRV n` and
`generateMockSleep n` return exactly `n` samples, in strictly
increasing date order (oldest first), the last sample dated the
current calendar day `today`. -/
theorem generators_length_order_last (days : ℕ) (u : ℕ → ℚ)
    (ds : ℕ → SleepDraws) (today : ℤ) (h : 1 ≤ days) :
    (generateMockHRV days u today).length = days ∧
    List.Pairwise (fun a b => a.date < b.date)
      (generateMockHRV days u today) ∧
    ((generateMockHRV days u today).map HRVData.date).getLast?
      = some today ∧
    (generateMockSleep days ds today).length = days ∧
    List.Pairwise (fun a b => a.date < b.date)
      (generateMockSleep days ds today) ∧
    ((generateMockSleep days ds today).map SleepData.date).getLast?
      = some today := by
  refine ⟨by simp [generateMockHRV], ?_, ?_, by simp [generateMockSleep],
    ?_, ?_⟩
  · exact revRangeMap_pairwise _ HRVData.date today (fun i => rfl) days
  · show ((((List.range days).reverse).map (hrvSample u today)).map
        HRVData.date).getLast? = some today
    rw [List.map_map]
    have := revRangeMap_getLast (HRVData.date ∘ hrvSample u today) days h
    simpa [hrvSample] using this
  · exact revRangeMap_pairwise _ SleepData.date today (fun i => rfl) days
  · show ((((List.range days).reverse).map
        (fun i => sleepSample today (ds i) i)).map
        SleepData.date).getLast? = some today
    rw [List.map_map]
    have := revRangeMap_getLast
      (SleepData.date ∘ fun i => sleepSample today (ds i) i) days h
    simpa [sleepSample] using this

/-- Witness for C7 at `days = 3`. -/
theorem generators_length_order_last_witness :
    (1 ≤ 3) ∧
    ((generateMockHRV 3 (fun _ => 0) 0).length = 3 ∧
     List.Pairwise (fun a b => a.date < b.date)
       (generateMockHRV 3 (fun _ => 0) 0) ∧
     ((generateMockHRV 3 (fun _ => 0) 0).map HRVData.date).getLast?
       = some 0 ∧
     (generateMockSleep 3 (fun _ => ⟨0, 0, 0, 0, 0, 0, 0⟩) 0).length = 3 ∧
     List.Pairwise (fun a b => a.date < b.date)
       (generateMockSleep 3 (fun _ => ⟨0, 0, 0, 0, 0, 0, 0⟩) 0) ∧
     ((generateMockSleep 3 (fun _ => ⟨0, 0, 0, 0, 0, 0, 0⟩) 0).map
       SleepData.date).getLast? = some 0) :=
  ⟨by norm_num,
   generators_length_order_last 3 (fun _ => 0)
     (fun _ => ⟨0, 0, 0, 0, 0, 0, 0⟩) 0 (by norm_num)⟩

/-- **C3.** For every generated sleep sample and all draws, the
displayed `wake_time` is exactly the displayed time of
`bedtime instant + duration` (wrapping past midnight), the `bedtime`
field is the displayed bedtime instant, `duration_hours` is the raw
duration rounded to one decimal — and the wake time is a function of
the bedtime instant and the duration alone (two draw tuples agreeing
on those agree on `wake_time`): it is never randomized independently. -/
theorem wake_time_is_bedtime_plus_duration (today : ℤ) (i : ℕ)
    (d d' : SleepDraws)
    (hb : bedtimeSec d' = bedtimeSec d)
    (hd : durationRaw d' = durationRaw d) :
    (sleepSample today d i).wake_time
      = hhmm (bedtimeSec d + durationRaw d * 3600) ∧
    (sleepSample today d i).bedtime = hhmm (bedtimeSec d) ∧
    (sleepSample today d i).duration_hours = round1 (durationRaw d) ∧
    (sleepSample today d' i).wake_time
      = (sleepSample today d i).wake_time := by
  refine ⟨rfl, rfl, rfl, ?_⟩
  show hhmm (bedtimeSec d' + durationRaw d' * 3600)
    = hhmm (bedtimeSec d + durationRaw d * 3600)
  rw [hb, hd]

/-- Witness for C3 at a concrete draw tuple. -/
theorem wake_time_is_bedtime_plus_duration_witness :
    (bedtimeSec ⟨0, 0, 0, 0, 0, 0, 0⟩ = bedtimeSec ⟨0, 0, 0, 0, 0, 0, 0⟩) ∧
    (durationRaw ⟨0, 0, 0, 0, 0, 0, 0⟩ = durationRaw ⟨0, 0, 0, 0, 0, 0, 0⟩) ∧
    ((sleepSample 0 ⟨0, 0, 0, 0, 0, 0, 0⟩ 0).wake_time
        = hhmm (bedtimeSec ⟨0, 0, 0, 0, 0, 0, 0⟩
            + durationRaw ⟨0, 0, 0, 0, 0, 0, 0⟩ * 3600) ∧
      (sleepSample 0 ⟨0, 0, 0, 0, 0, 0, 0⟩ 0).bedtime
        = hhmm (bedtimeSec ⟨0, 0, 0, 0, 0, 0, 0⟩) ∧
      (sleepSample 0 ⟨0, 0, 0, 0, 0, 0, 0⟩ 0).duration_hours
        = round1 (durationRaw ⟨0, 0, 0, 0, 0, 0, 0⟩) ∧
      (sleepSample 0 ⟨0, 0, 0, 0, 0, 0, 0⟩ 0).wake_time
        = (sleepSample 0 ⟨0, 0, 0, 0, 0, 0, 0⟩ 0).wake_time) :=
  ⟨rfl, rfl, wake_time_is_bedtime_plus_duration 0 0 _ _ rfl rfl⟩

/-- **C5.** The fixed trend test vectors: `[10,10,10,1,1,1]` classifies
as `declining` with `change = -9` (last-3 mean minus first-3 mean of
the whole series), `[5,5,5,5,5,5]` as `stable` with `change = 0`; both
the HRV variant and the generic variant agree on the directions. -/
theorem trend_window_test_vectors :
    analyzeHRVTrend [10, 10, 10, 1, 1, 1]
      = { direction := .declining, change := -9
          change_percent := some (-90), significance := .significant } ∧
    calculateTrend [10, 10, 10, 1, 1, 1] = .declining ∧
    analyzeHRVTrend [5, 5, 5, 5, 5, 5]
      = { direction := .stable, change := 0
          change_percent := some 0, significance := .none } ∧
    calculateTrend [5, 5, 5, 5, 5, 5] = .stable := by
  refine ⟨?_, ?_, ?_, ?_⟩ <;>
    norm_num [analyzeHRVTrend, calculateTrend, jround]

/-- **C2 (counterexample).** The HRV trend variant on the 2-element
series `[10, 20]` returns direction `stable`, not `insufficient_data`:
its guard is `data.length < 2`, not `< 3`. -/
theorem short_series_insufficient_counterexample :
    (analyzeHRVTrend [10, 20]).direction = .stable ∧
    (analyzeHRVTrend [10, 20]).direction ≠ .insufficient_data := by
  have hs : (analyzeHRVTrend [10, 20]).direction = .stable := by
    norm_num [analyzeHRVTrend]
  exact ⟨hs, by rw [hs]; decide⟩

/-- **C2 (amended).** The generic trend variant returns
`insufficient_data` for any series of length `< 3`; the HRV variant
does so only for length `< 2`, and on a series of length exactly 2 it
returns direction `stable` with `change = 0` (the two windows
coincide, so the change is always zero there). -/
theorem short_series_trend (l : List ℚ) (h : l.length ≤ 2) :
    calculateTrend l = .insufficient_data ∧
    (l.length ≤ 1 → analyzeHRVTrend l =
      { direction := .insufficient_data, change := 0
        change_percent := none, significance := .none }) ∧
    (l.length = 2 → (analyzeHRVTrend l).direction = .stable ∧
      (analyzeHRVTrend l).change = 0) := by
  refine ⟨?_, ?_, ?_⟩
  · rw [calculateTrend, if_pos (by omega)]
  · intro h1
    rw [analyzeHRVTrend, if_pos (by omega)]
  · intro h2
    obtain ⟨a, b, rfl⟩ := List.length_eq_two.mp h2
    constructor <;> norm_num [analyzeHRVTrend, jround]

/-- Witness for the amended C2 at `l = [10, 20]`. -/
theorem short_series_trend_witness :
    (([10, 20] : List ℚ).length ≤ 2) ∧
    (calculateTrend [10, 20] = .insufficient_data ∧
     (([10, 20] : List ℚ).length ≤ 1 → analyzeHRVTrend [10, 20] =
       { direction := .insufficient_data, change := 0
         change_percent := none, significance := .none }) ∧
     (([10, 20] : List ℚ).length = 2 →
       (analyzeHRVTrend [10, 20]).direction = .stable ∧
       (analyzeHRVTrend [10, 20]).change = 0)) :=
  ⟨by norm_num, short_series_trend [10, 20] (by norm_num)⟩

/-- With a draw in `[0,1)` the un-clamped value `45 + (u-1/2)*20` lies
in `[35,55)`, so the clamp is a no-op, the rounded value lies in
`[35,55]`, and the category is `normal`. -/
theorem hrvSample_value_bounds (u : ℕ → ℚ) (today : ℤ) (i : ℕ)
    (h0 : 0 ≤ u i) (h1 : u i < 1) :
    35 ≤ (hrvSample u today i).value ∧
    (hrvSample u today i).value ≤ 55 ∧
    (hrvSample u today i).category = .normal := by
  have hx0 : (35 : ℚ) ≤ 45 + (u i - 1/2) * 20 := by linarith
  have hx1 : 45 + (u i - 1/2) * 20 < 55 := by linarith
  have hclamp : max 20 (min 80 (45 + (u i - 1/2) * 20))
      = 45 + (u i - 1/2) * 20 := by
    rw [min_eq_right (by linarith), max_eq_right (by linarith)]
  have hval : (hrvSample u today i).value
      = jround (45 + (u i - 1/2) * 20) := by
    simp only [hrvSample, hclamp]
  have hcat : (hrvSample u today i).category
      = hrvCategory (45 + (u i - 1/2) * 20) := by
    simp only [hrvSample, hclamp]
  refine ⟨?_, ?_, ?_⟩
  · rw [hval]
    exact Int.le_floor.mpr (by push_cast; linarith)
  · rw [hval]
    have : jround (45 + (u i - 1/2) * 20) < 56 :=
      Int.floor_lt.mpr (by push_cast; linarith)
    omega
  · rw [hcat, hrvCategory, if_neg (by linarith), if_neg (by
      simp only [not_lt]; linarith)]

/-- **C6.** For every generated HRV sample, `category = low ⟺
value < 30`, `category = high ⟺ value > 60`, `normal` otherwise; and
the category function partitions the clamp range `[20, 80]` into the
cells `[20,30)`, `[30,60]`, `(60,80]`. -/
theorem hrv_category_partition (u : ℕ → ℚ) (today : ℤ) (i : ℕ) (v : ℚ)
    (h0 : 0 ≤ u i) (h1 : u i < 1) (hv0 : 20 ≤ v) (hv1 : v ≤ 80) :
    ((hrvSample u today i).category = .low
      ↔ (hrvSample u today i).value < 30) ∧
    ((hrvSample u today i).category = .high
      ↔ 60 < (hrvSample u today i).value) ∧
    ((hrvSample u today i).category = .normal
      ↔ (30 ≤ (hrvSample u today i).value ∧
         (hrvSample u today i).value ≤ 60)) ∧
    (hrvCategory v = .low ↔ v < 30) ∧
    (hrvCategory v = .high ↔ 60 < v) ∧
    (hrvCategory v = .normal ↔ (30 ≤ v ∧ v ≤ 60)) := by
  obtain ⟨hb1, hb2, hcat⟩ := hrvSample_value_bounds u today i h0 h1
  refine ⟨iff_of_false (by rw [hcat]; decide) (by omega),
    iff_of_false (by rw [hcat]; decide) (by omega),
    iff_of_true hcat ⟨by omega, by omega⟩, ?_, ?_, ?_⟩ <;>
      unfold hrvCategory
  · rcases lt_or_le v 30 with hl | hge
    · rw [if_pos hl]
      exact iff_of_true rfl hl
    · rw [if_neg (not_lt.mpr hge)]
      rcases lt_or_le 60 v with hh | hle
      · rw [if_pos hh]
        exact iff_of_false (by decide) (not_lt.mpr (by linarith))
      · rw [if_neg (not_lt.mpr hle)]
        exact iff_of_false (by decide) (not_lt.mpr hge)
  · rcases lt_or_le v 30 with hl | hge
    · rw [if_pos hl]
      exact iff_of_false (by decide) (not_lt.mpr (by linarith))
    · rw [if_neg (not_lt.mpr hge)]
      rcases lt_or_le 60 v with hh | hle
      · rw [if_pos hh]
        exact iff_of_true rfl hh
      · rw [if_neg (not_lt.mpr hle)]
        exact iff_of_false (by decide) (not_lt.mpr hle)
  · rcases lt_or_le v 30 with hl | hge
    · rw [if_pos hl]
      exact iff_of_false (by decide) (fun hc => absurd hc.1 (not_le.mpr hl))
    · rw [if_neg (not_lt.mpr hge)]
      rcases lt_or_le 60 v with hh | hle
      · rw [if_pos hh]
        exact iff_of_false (by decide)
          (fun hc => absurd hc.2 (not_le.mpr hh))
      · rw [if_neg (not_lt.mpr hle)]
        exact iff_of_true rfl ⟨hge, hle⟩

/-- Witness for C6 at the zero draw and `v = 25`. -/
theorem hrv_category_partition_witness :
    ((0 : ℚ) ≤ 0 ∧ (0 : ℚ) < 1 ∧ (20 : ℚ) ≤ 25 ∧ (25 : ℚ) ≤ 80) ∧
    (((hrvSample (fun _ => 0) 0 0).category = .low
        ↔ (hrvSample (fun _ => 0) 0 0).value < 30) ∧
     ((hrvSample (fun _ => 0) 0 0).category = .high
        ↔ 60 < (hrvSample (fun _ => 0) 0 0).value) ∧
     ((hrvSample (fun _ => 0) 0 0).category = .normal
        ↔ (30 ≤ (hrvSample (fun _ => 0) 0 0).value ∧
           (hrvSample (fun _ => 0) 0 0).value ≤ 60)) ∧
     (hrvCategory 25 = .low ↔ (25 : ℚ) < 30) ∧
     (hrvCategory 25 = .high ↔ (60 : ℚ) < 25) ∧
     (hrvCategory 25 = .normal ↔ ((30 : ℚ) ≤ 25 ∧ (25 : ℚ) ≤ 60))) :=
  ⟨by norm_num,
   hrv_category_partition (fun _ => 0) 0 0 25
     (by norm_num) (by norm_num) (by norm_num) (by norm_num)⟩

/-- With a non-negative duration draw the raw duration is at least 6.5
hours, and so is its one-decimal rounding. -/
theorem sleepSample_duration_lb (today : ℤ) (d : SleepDraws) (i : ℕ)
    (h0 : 0 ≤ d.dur) :
    (13/2 : ℚ) ≤ (sleepSample today d i).duration_hours := by
  have hdv : (sleepSample today d i).duration_hours
      = round1 (durationRaw d) := rfl
  have hx : (13/2 : ℚ) ≤ durationRaw d := by
    unfold durationRaw; norm_num; linarith
  have h65 : (65 : ℤ) ≤ jround (durationRaw d * 10) :=
    Int.le_floor.mpr (by push_cast; linarith)
  have h65q : ((65 : ℤ) : ℚ) ≤ (jround (durationRaw d * 10) : ℚ) :=
    Int.cast_le.mpr h65
  rw [hdv, round1]
  push_cast at h65q ⊢
  linarith

/-- **C4.** For every random draw in range, the three alert thresholds
all evaluate to `ok` and the status snapshot has an empty alerts list:
generated HRV is at least 35 (never below 30), generated sleep
duration is at least 6.5 h (never below 6), and generated steps are at
least 8500 (never below 5000). -/
theorem alerts_never_trigger (uH : ℕ → ℚ) (uS : ℕ → SleepDraws)
    (a : ActivityDraws) (today : ℤ)
    (hH : ∀ i, 0 ≤ uH i ∧ uH i < 1)
    (hS : ∀ i, 0 ≤ (uS i).dur ∧ (uS i).dur < 1)
    (hA : 0 ≤ a.steps ∧ a.steps < 1) :
    ((generateMockAlerts uH uS a today).map AlertThreshold.status)
      = [.ok, .ok, .ok] ∧
    (generateMockStatus uH uS a today).alerts = [] := by
  have hcur : (generateMockStatus uH uS a today).hrv.current
      = (hrvSample uH today 0).value := rfl
  have hlast : (generateMockStatus uH uS a today).sleep.last_night_hours
      = (sleepSample today (uS 0) 0).duration_hours := rfl
  have hsteps : (generateMockStatus uH uS a today).activity.steps
      = 8500 + ⌊a.steps * 3000⌋ := rfl
  obtain ⟨h35, _, _⟩ :=
    hrvSample_value_bounds uH today 0 (hH 0).1 (hH 0).2
  have hdur := sleepSample_duration_lb today (uS 0) 0 (hS 0).1
  have hc1 : ¬ (((generateMockStatus uH uS a today).hrv.current : ℚ)
      < 30) := by
    rw [hcur, not_lt]
    have : ((35 : ℤ) : ℚ) ≤ ((hrvSample uH today 0).value : ℚ) :=
      Int.cast_le.mpr h35
    push_cast at this
    linarith
  have hc2 : ¬ ((generateMockStatus uH uS a today).sleep.last_night_hours
      < 6) := by
    rw [hlast, not_lt]
    linarith
  have hc3 : ¬ (((generateMockStatus uH uS a today).activity.steps : ℚ)
      < 5000) := by
    rw [hsteps, not_lt]
    have hfl : (0 : ℤ) ≤ ⌊a.steps * 3000⌋ :=
      Int.le_floor.mpr (by push_cast; nlinarith [hA.1])
    push_cast
    have : ((0 : ℤ) : ℚ) ≤ (⌊a.steps * 3000⌋ : ℚ) := Int.cast_le.mpr hfl
    push_cast at this
    linarith
  constructor
  · show ((mkAlerts (generateMockStatus uH uS a today)).map
      AlertThreshold.status) = [.ok, .ok, .ok]
    simp only [mkAlerts, List.map_cons, List.map_nil]
    rw [if_neg hc1, if_neg hc2, if_neg hc3]
  · have halerts : (generateMockStatus uH uS a today).alerts
        = (if (hrvSample uH today 0).value < 30 then
            ["🔴 HRV is low - consider rest day"] else []) ++
          (if (sleepSample today (uS 0) 0).duration_hours < 6 then
            ["😴 Insufficient sleep last night"] else []) := rfl
    rw [halerts, if_neg (by omega), if_neg (by linarith)]
    rfl

/-- Witness for C4 at the zero draws. -/
theorem alerts_never_trigger_witness :
    ((∀ i : ℕ, (0 : ℚ) ≤ 0 ∧ (0 : ℚ) < 1) ∧ (0 : ℚ) ≤ 0 ∧ (0 : ℚ) < 1) ∧
    (((generateMockAlerts (fun _ => 0) (fun _ => ⟨0, 0, 0, 0, 0, 0, 0⟩)
        ⟨0, 0, 0⟩ 0).map AlertThreshold.status) = [.ok, .ok, .ok] ∧
     (generateMockStatus (fun _ => 0) (fun _ => ⟨0, 0, 0, 0, 0, 0, 0⟩)
        ⟨0, 0, 0⟩ 0).alerts = []) :=
  ⟨⟨fun _ => ⟨le_refl 0, by norm_num⟩, le_refl 0, by norm_num⟩,
   alerts_never_trigger (fun _ => 0) (fun _ => ⟨0, 0, 0, 0, 0, 0, 0⟩)
     ⟨0, 0, 0⟩ 0 (fun _ => ⟨le_refl 0, by norm_num⟩)
     (fun _ => ⟨le_refl 0, by norm_num⟩) ⟨le_refl 0, by norm_num⟩⟩

/-- Fallback record for `array[index]` reads on the alert list. -/
def dfltAlert : AlertThreshold :=
  { metric := "", threshold := 0, current := 0, status := .ok
    message := "" }

/-- A probe status with a prescribed current HRV value (all other
fields benign). -/
def probeStatus (hrvCurrent : ℤ) : HealthStatus :=
  { date := 0
    hrv := { current := hrvCurrent, trend := .stable, category := .normal }
    sleep := { last_night_hours := 7, avg_7_day := 7, score := 80 }
    activity := { steps := 8000, active_calories := 500
                  exercise_minutes := 30 }
    alerts := [] }

/-- **C8.** In the alert evaluation each metric's status is `warning`
exactly when its current value is strictly below its threshold (HRV 30,
Sleep Duration 6, Daily Steps 5000) and `ok` otherwise; in particular a
current HRV of exactly 30 gives `ok` and 29 gives `warning`. -/
theorem alert_warning_iff_below_threshold (s : HealthStatus) :
    (((mkAlerts s).getD 0 dfltAlert).status = .warning
      ↔ (s.hrv.current : ℚ) < 30) ∧
    (((mkAlerts s).getD 0 dfltAlert).status = .ok
      ↔ ¬ (s.hrv.current : ℚ) < 30) ∧
    (((mkAlerts s).getD 1 dfltAlert).status = .warning
      ↔ s.sleep.last_night_hours < 6) ∧
    (((mkAlerts s).getD 1 dfltAlert).status = .ok
      ↔ ¬ s.sleep.last_night_hours < 6) ∧
    (((mkAlerts s).getD 2 dfltAlert).status = .warning
      ↔ (s.activity.steps : ℚ) < 5000) ∧
    (((mkAlerts s).getD 2 dfltAlert).status = .ok
      ↔ ¬ (s.activity.steps : ℚ) < 5000) ∧
    ((mkAlerts (probeStatus 30)).getD 0 dfltAlert).status = .ok ∧
    ((mkAlerts (probeStatus 29)).getD 0 dfltAlert).status = .warning := by
  refine ⟨?_, ?_, ?_, ?_, ?_, ?_, ?_, ?_⟩
  · by_cases h : (s.hrv.current : ℚ) < 30 <;> simp [mkAlerts, h]
  · by_cases h : (s.hrv.current : ℚ) < 30 <;> simp [mkAlerts, h]
  · by_cases h : s.sleep.last_night_hours < 6 <;> simp [mkAlerts, h]
  · by_cases h : s.sleep.last_night_hours < 6 <;> simp [mkAlerts, h]
  · by_cases h : (s.activity.steps : ℚ) < 5000 <;> simp [mkAlerts, h]
  · by_cases h : (s.activity.steps : ℚ) < 5000 <;> simp [mkAlerts, h]
  · norm_num [mkAlerts, probeStatus]
  · norm_num [mkAlerts, probeStatus]

/-- **C9.** The scanner fails with the malformed-import error exactly
when the substring `<HealthData` is absent; in particular
`scan("<NotHealthData></NotHealthData>")` fails and produces no
result. -/
theorem scanner_rejects_missing_root (s : List Char) :
    (parseAppleHealthXML s = .error .malformedImport
      ↔ containsSub "<HealthData".data s = false) ∧
    parseAppleHealthXML "<NotHealthData></NotHealthData>".data
      = .error .malformedImport := by
  constructor
  · cases h : containsSub "<HealthData".data s <;>
      simp [parseAppleHealthXML, h]
  · rfl

/-- The literal export text of the scanner determinism test vector. -/
def sampleExport : String :=
  "<HealthData><Record type=\"HKQuantityTypeIdentifierHeartRateVariabilitySDNN\" startDate=\"2024-01-01 08:00:00 +0000\"/><Record type=\"HKCategoryTypeIdentifierSleepAnalysis\" startDate=\"2024-01-03 08:00:00 +0000\"/></HealthData>"

set_option maxRecDepth 100000 in
/-- **C1 (actual behavior at the claimed input).** On the sample export
the scanner counts 2 records and finds the date range
2024-01-01..2024-01-03 as claimed, but the capital-spacing rewrite
turns the HRV type into `"Heart Rate Variability S D N N"` (not
`"Heart Rate Variability SDNN"`), so the `HRV data not found in
export` warning IS emitted alongside the trailing privacy notice. -/
theorem scanner_sample_export_output :
    parseAppleHealthXML sampleExport.data = .ok
      { recordCount := 2
        dataTypes := ["Heart Rate Variability S D N N", "Sleep Analysis"]
        dateStart := "2024-01-01"
        dateEnd := "2024-01-03"
        warnings := ["HRV data not found in export",
          "NOTE: This is a parser demo - no personal health data is stored or transmitted"] } := by
  rfl

/-- The debt accumulation loop equals the sum of the per-night
shortfalls `max 0 (8 - d)`. -/
theorem sleepDebt_foldl (l : List ℚ) (init : ℚ) :
    l.foldl (fun acc d => if d < 8 then acc + (8 - d) else acc) init
      = init + (l.map (fun d => max 0 (8 - d))).sum := by
  induction l generalizing init with
  | nil => simp
  | cons d t ih =>
    simp only [List.foldl_cons, List.map_cons, List.sum_cons, ih]
    by_cases hd : d < 8
    · rw [if_pos hd, max_eq_right (by linarith)]
      ring
    · rw [if_neg hd, max_eq_left (by linarith)]
      ring

/-- Pointwise larger durations give pointwise smaller shortfall sums. -/
theorem shortfall_sum_antitone :
    ∀ {l₁ l₂ : List ℚ}, List.Forall₂ (· ≤ ·) l₁ l₂ →
      (l₂.map (fun d => max 0 (8 - d))).sum
        ≤ (l₁.map (fun d => max 0 (8 - d))).sum := by
  intro l₁ l₂ h
  induction h with
  | nil => simp
  | @cons a b t₁ t₂ hab _ ih =>
    simp only [List.map_cons, List.sum_cons]
    have hmx : max 0 (8 - b) ≤ max 0 (8 - a) :=
      max_le_max (le_refl 0) (by linarith)
    exact add_le_add hmx ih

/-- **C10.** The total sleep debt is `Σ max(0, 8 - duration)`; it is
non-negative; pointwise larger durations (same length) give a total
debt that is at most the smaller series' debt; the status is
`significant` iff the total exceeds 5, `moderate` iff it exceeds 2 but
not 5, `minimal` iff it is at most 2. -/
theorem sleep_debt_properties (l₁ l₂ : List ℚ)
    (h : List.Forall₂ (· ≤ ·) l₁ l₂) :
    sleepDebtTotal l₁ = (l₁.map (fun d => max 0 (8 - d))).sum ∧
    0 ≤ sleepDebtTotal l₁ ∧
    sleepDebtTotal l₂ ≤ sleepDebtTotal l₁ ∧
    ((calculateSleepDebt l₁).status = .significant
      ↔ 5 < sleepDebtTotal l₁) ∧
    ((calculateSleepDebt l₁).status = .moderate
      ↔ (2 < sleepDebtTotal l₁ ∧ sleepDebtTotal l₁ ≤ 5)) ∧
    ((calculateSleepDebt l₁).status = .minimal
      ↔ sleepDebtTotal l₁ ≤ 2) := by
  have hsum : ∀ l : List ℚ,
      sleepDebtTotal l = (l.map (fun d => max 0 (8 - d))).sum := by
    intro l
    rw [sleepDebtTotal, sleepDebt_foldl, zero_add]
  have hnn : 0 ≤ sleepDebtTotal l₁ := by
    rw [hsum]
    exact List.sum_nonneg (by
      intro x hx
      obtain ⟨d, _, rfl⟩ := List.mem_map.mp hx
      exact le_max_left 0 _)
  have hstat : (calculateSleepDebt l₁).status
      = if 5 < sleepDebtTotal l₁ then DebtStatus.significant
        else if 2 < sleepDebtTotal l₁ then DebtStatus.moderate
        else DebtStatus.minimal := rfl
  refine ⟨hsum l₁, hnn, ?_, ?_, ?_, ?_⟩
  · rw [hsum, hsum]
    exact shortfall_sum_antitone h
  · rw [hstat]
    rcases lt_or_le 5 (sleepDebtTotal l₁) with h5 | h5
    · rw [if_pos h5]
      exact iff_of_true rfl h5
    · rw [if_neg (not_lt.mpr h5)]
      rcases lt_or_le 2 (sleepDebtTotal l₁) with h2 | h2
      · rw [if_pos h2]
        exact iff_of_false (by decide) (not_lt.mpr h5)
      · rw [if_neg (not_lt.mpr h2)]
        exact iff_of_false (by decide) (not_lt.mpr (by linarith))
  · rw [hstat]
    rcases lt_or_le 5 (sleepDebtTotal l₁) with h5 | h5
    · rw [if_pos h5]
      exact iff_of_false (by decide) (fun hc => absurd h5 (not_lt.mpr hc.2))
    · rw [if_neg (not_lt.mpr h5)]
      rcases lt_or_le 2 (sleepDebtTotal l₁) with h2 | h2
      · rw [if_pos h2]
        exact iff_of_true rfl ⟨h2, h5⟩
      · rw [if_neg (not_lt.mpr h2)]
        exact iff_of_false (by decide) (fun hc => absurd hc.1 (not_lt.mpr h2))
  · rw [hstat]
    rcases lt_or_le 5 (sleepDebtTotal l₁) with h5 | h5
    · rw [if_pos h5]
      exact iff_of_false (by decide) (not_le.mpr (by linarith))
    · rw [if_neg (not_lt.mpr h5)]
      rcases lt_or_le 2 (sleepDebtTotal l₁) with h2 | h2
      · rw [if_pos h2]
        exact iff_of_false (by decide) (not_le.mpr h2)
      · rw [if_neg (not_lt.mpr h2)]
        exact iff_of_true rfl h2

/-- Witness for C10 at `l₁ = [7, 6]`, `l₂ = [15/2, 8]`. -/
theorem sleep_debt_properties_witness :
    List.Forall₂ (· ≤ ·) ([7, 6] : List ℚ) [15/2, 8] ∧
    (sleepDebtTotal [7, 6]
        = (([7, 6] : List ℚ).map (fun d => max 0 (8 - d))).sum ∧
     0 ≤ sleepDebtTotal [7, 6] ∧
     sleepDebtTotal [15/2, 8] ≤ sleepDebtTotal [7, 6] ∧
     ((calculateSleepDebt [7, 6]).status = .significant
        ↔ 5 < sleepDebtTotal [7, 6]) ∧
     ((calculateSleepDebt [7, 6]).status = .moderate
        ↔ (2 < sleepDebtTotal [7, 6] ∧ sleepDebtTotal [7, 6] ≤ 5)) ∧
     ((calculateSleepDebt [7, 6]).status = .minimal
        ↔ sleepDebtTotal [7, 6] ≤ 2)) := by
  have hf : List.Forall₂ (· ≤ ·) ([7, 6] : List ℚ) [15/2, 8] :=
    List.Forall₂.cons (by norm_num)
      (List.Forall₂.cons (by norm_num) List.Forall₂.nil)
  exact ⟨hf, sleep_debt_properties [7, 6] [15/2, 8] hf⟩
